import Mathlib

/-!
Verification of the alert-orchestration core of an object-detection
monitoring program (`main.py`) against its natural-language specification.

The embedding below mirrors the source:
* `Zone`, `zoneContains`, `assignZone` — the ROI zone list and the per-
  detection zone-membership loop (`main.py` lines 274-289).
* `pushBuf`, `feedFrames` — the `deque(maxlen=150)` frame ring buffer
  (line 71, line 213).
* `SysState`, `frameStep`, `runTrace` — the per-frame alert / recording
  logic of the main loop (lines 306-334) together with
  `start_recording` / `stop_recording` (lines 139-159).
* `classifyOne`, `processDetections` — the per-detection classification
  and CSV-logging loop (lines 261-303).
* `send_email_alert` — the notification function (lines 93-136), modelled
  by the observable actions it performs.
* `mkLogFile`, `log_detection` — CSV log-file naming (line 76) and row
  appending (lines 85-90).

Times are integers (`time.time()` values), frames are abstract `Nat`
identifiers, confidences are abstract `Nat` values: none of the claims
depends on real-valued arithmetic.
-/

/-- A named rectangular region of interest, as in `ROI_ZONES`
(`main.py` line 59): `{"name": ..., "coords": (x, y, w, h)}`. -/
structure Zone where
  name : String
  x : Int
  y : Int
  w : Int
  h : Int
deriving DecidableEq, Repr

/-- The membership test of `main.py` line 276:
`rx < center_x < rx + rw and ry < center_y < ry + rh`
(Python chained comparisons, both strict). -/
def zoneContains (z : Zone) (cx cy : Int) : Bool :=
  z.x < cx && cx < z.x + z.w && z.y < cy && cy < z.y + z.h

/-- The zone-assignment loop of `main.py` lines 269-289: starting from
`in_roi = False, zone_name = "Outside"`, scan `ROI_ZONES` in order and
`break` at the first zone containing the detection's box center. -/
def assignZone : List Zone → Int → Int → Bool × String
  | [], _, _ => (false, "Outside")
  | z :: zs, cx, cy =>
      if zoneContains z cx cy then (true, z.name) else assignZone zs cx cy

/-- A sample zone, `"Zone 1"` with coords `(400, 100, 250, 350)`
(`main.py` line 60). -/
def zone1 : Zone := ⟨"Zone 1", 400, 100, 250, 350⟩

/-- Capacity of the pre-event frame buffer:
`frame_buffer = deque(maxlen=150)` (`main.py` line 71). -/
def bufCapacity : Nat := 150

/-- `frame_buffer.append(frame.copy())` (`main.py` line 213): a
`deque(maxlen=150)` discards its oldest element when appending at
capacity. -/
def pushBuf (buf : List Nat) (f : Nat) : List Nat :=
  if buf.length = bufCapacity then buf.drop 1 ++ [f] else buf ++ [f]

/-- The buffer contents after the main loop has pushed the frames `fs`
(in order) into an initially empty buffer. -/
def feedFrames (fs : List Nat) : List Nat :=
  fs.foldl pushBuf []

/-- The mutable state of the main loop that the alert / recording logic
touches: `last_alert_time` (line 67, initially `0`), `recording`
(line 69), `recording_start_time` (line 197), the frame buffer
(line 71), and the frames written so far to the currently open
`video_writer` (created in `start_recording`, lines 139-152). -/
structure SysState where
  last_alert_time : Int
  recording : Bool
  recording_start_time : Int
  frame_buffer : List Nat
  writer : List Nat
deriving Repr

/-- The state at program start: `last_alert_time = 0`,
`recording = False`, empty buffer, no writer. -/
def initState : SysState :=
  { last_alert_time := 0, recording := false, recording_start_time := 0,
    frame_buffer := [], writer := [] }

/-- Lines 306-315 of `main.py`: if `current_frame_alert_objects` is
non-empty, ROI monitoring is on, and
`current_time - last_alert_time > alert_cooldown` (strict `>`), then —
only if not already recording — `start_recording` (which writes the
whole current buffer to a fresh writer, lines 146-148), set
`recording_start_time` and `last_alert_time := current_time`.  Returns
the new state and whether the trigger was accepted (the
`start_recording` branch ran). -/
def alertPhase (roi : Bool) (cooldown : Int) (s : SysState)
    (alertObjs : List String) (t : Int) : SysState × Bool :=
  if !alertObjs.isEmpty && roi && decide (t - s.last_alert_time > cooldown) then
    if !s.recording then
      ({ s with last_alert_time := t, recording := true,
                recording_start_time := t, writer := s.frame_buffer }, true)
    else (s, false)
  else (s, false)

/-- Lines 318-323 of `main.py`: while recording, write the current frame
to the open writer; once `current_time - recording_start_time` reaches
`args.record_duration`, `stop_recording`. -/
def recordPhase (rd : Int) (s : SysState) (f : Nat) (t : Int) : SysState :=
  if s.recording then
    let sw : SysState := { s with writer := s.writer ++ [f] }
    if decide (t - sw.recording_start_time ≥ rd) then
      { sw with recording := false }
    else sw
  else s

/-- One iteration of the main loop (`main.py` lines 203-334), restricted
to buffer / alert / recording effects, in source order: push the frame
into the ring buffer (line 213), run the alert logic (lines 306-315),
then the recording handling (lines 318-323). -/
def frameStep (roi : Bool) (cooldown rd : Int) (s : SysState)
    (f : Nat) (alertObjs : List String) (t : Int) : SysState × Bool :=
  let s0 : SysState := { s with frame_buffer := pushBuf s.frame_buffer f }
  let p := alertPhase roi cooldown s0 alertObjs t
  (recordPhase rd p.1 f t, p.2)

/-- Run the main loop over a list of events
`(frame, current_frame_alert_objects, current_time)`, collecting the
timestamps at which triggers were accepted. -/
def runTrace (roi : Bool) (cooldown rd : Int) :
    SysState → List (Nat × List String × Int) → List Int
  | _, [] => []
  | s, (f, objs, t) :: rest =>
      let p := frameStep roi cooldown rd s f objs t
      (if p.2 then [t] else []) ++ runTrace roi cooldown rd p.1 rest

/-- Number of simultaneously active recording sessions: the code has a
single global `recording` flag and a single global `video_writer`
(lines 69-70), so a state holds at most one session. -/
def activeSessions (s : SysState) : Nat :=
  if s.recording then 1 else 0

/-- A concrete state with an active recording session. -/
def sActive : SysState :=
  { last_alert_time := 10, recording := true, recording_start_time := 10,
    frame_buffer := [0, 1], writer := [0, 1] }

/-- A detection bounding box `(x, y, w, h)` as built in `main.py`
lines 245-251 (absolute pixel coordinates, possibly degenerate). -/
structure RawBox where
  x : Int
  y : Int
  w : Int
  h : Int
deriving DecidableEq, Repr

/-- One row of the detections CSV as written by `log_detection`
(lines 85-90): object label, confidence (abstracted), `In_ROI`, zone
name, `Alert_Triggered`.  The timestamp column is modelled separately
where it matters (`log_detection` below). -/
structure LogRow where
  label : String
  confidence : Nat
  in_roi : Bool
  zone : String
  alert_triggered : Bool
deriving DecidableEq, Repr

/-- Per-detection body of the consumption loop (`main.py`
lines 263-303): compute the box center (`x + w // 2`, `y + h // 2`,
Python floor division, line 268), assign a zone when ROI monitoring is
on (lines 273-289), mark the label as alert-eligible when it landed in
a zone and its lowercase form is in `alert_objects` (lines 286-288),
and build the CSV row logged at line 303 — whose `Alert_Triggered`
argument is the literal `False`.  There is no check anywhere on the
box's width or height. -/
def classifyOne (roi : Bool) (zones : List Zone) (alertObjs : List String)
    (label : String) (conf : Nat) (b : RawBox) : LogRow × Bool :=
  let cx := b.x + Int.fdiv b.w 2
  let cy := b.y + Int.fdiv b.h 2
  let zr := if roi then assignZone zones cx cy else (false, "Outside")
  (⟨label, conf, zr.1, zr.2, false⟩,
    zr.1 && alertObjs.contains label.toLower)

/-- The consumption loop of lines 261-303: iterate over the detections
that survived confidence filtering, keeping index `i` only when NMS
retained it (`if i in indexes`, line 262); each kept detection is
classified and logged, and alert-eligible in-zone labels are collected
into `current_frame_alert_objects`. -/
def processDetectionsAux (roi : Bool) (zones : List Zone)
    (alertObjs : List String) (keep : Nat → Bool) :
    Nat → List (String × Nat × RawBox) → List LogRow × List String
  | _, [] => ([], [])
  | i, (label, conf, b) :: rest =>
      let res := processDetectionsAux roi zones alertObjs keep (i + 1) rest
      if keep i then
        let one := classifyOne roi zones alertObjs label conf b
        (one.1 :: res.1, (if one.2 then [label] else []) ++ res.2)
      else res

/-- Detection consumption for one frame, starting at index 0. -/
def processDetections (roi : Bool) (zones : List Zone)
    (alertObjs : List String) (keep : Nat → Bool)
    (dets : List (String × Nat × RawBox)) : List LogRow × List String :=
  processDetectionsAux roi zones alertObjs keep 0 dets

/-- Observable actions of one `send_email_alert` call (`main.py`
lines 93-136): whether the artifact path was tested for existence
(`os.path.exists(video_path)`, line 119), whether the clip was attached
(lines 120-125, only when the path exists), and whether an SMTP delivery
was attempted (lines 128-132). -/
structure EmailActions where
  checked_path : Bool
  attached_clip : Bool
  delivery_attempted : Bool
deriving DecidableEq, Repr

/-- `send_email_alert` (lines 93-136) as a function of the two
environment facts it reads: `EMAIL_CONFIG["enabled"]` and whether the
artifact path exists.  When disabled it returns immediately at line 95,
before any other statement runs; when enabled it builds the message,
consults the path to decide the attachment, and attempts delivery. -/
def send_email_alert (enabled : Bool) (path_exists : Bool) : EmailActions :=
  if !enabled then
    { checked_path := false, attached_clip := false, delivery_attempted := false }
  else
    { checked_path := true, attached_clip := path_exists, delivery_attempted := true }

/-- Log-file name for a given calendar day (`main.py` line 76):
`f"detections_{datetime.datetime.now().strftime('%Y%m%d')}.csv"`.  Days
are abstracted as `YYYYMMDD` numbers. -/
def mkLogFile (day : Nat) : String :=
  "detections_" ++ toString day ++ ".csv"

/-- The CSV logging state.  `log_file` is the module-level global of
line 76, computed once at startup from the day at startup; `rows`
records each appended row together with the file it was appended to and
the day at append time (the day enters the row's timestamp column
only). -/
structure LogState where
  log_file : String
  rows : List (String × Nat × LogRow)
deriving Repr

/-- The logging state right after module load on day `startDay`:
`log_file` is fixed to that day's name. -/
def initLog (startDay : Nat) : LogState :=
  { log_file := mkLogFile startDay, rows := [] }

/-- `log_detection` (lines 85-90): append one row to the file named by
the global `log_file`.  `currentDay` (from `datetime.datetime.now()` at
append time, line 89) reaches only the timestamp column of the row —
the target file is `log_file`, unconditionally. -/
def log_detection (s : LogState) (currentDay : Nat) (r : LogRow) : LogState :=
  { s with rows := s.rows ++ [(s.log_file, currentDay, r)] }

/-- A sequence of appends on (possibly several different) days. -/
def appendAll : LogState → List (Nat × LogRow) → LogState
  | s, [] => s
  | s, (d, r) :: rest => appendAll (log_detection s d r) rest

/-- A sample CSV row used in concrete counterexamples. -/
def sampleRow : LogRow :=
  { label := "person", confidence := 90, in_roi := true,
    zone := "Zone 1", alert_triggered := false }

/-- C3: a detection-box center point is classified inside a zone with
rect `(x, y, w, h)` iff `x < cx < x + w` and `y < cy < y + h`, with
strict inequalities; in particular the corner point `(x, y)` itself is
classified outside. -/
theorem C3_zone_membership_strict (z : Zone) (cx cy : Int) :
    (zoneContains z cx cy = true ↔
      (z.x < cx ∧ cx < z.x + z.w ∧ z.y < cy ∧ cy < z.y + z.h)) ∧
    zoneContains z z.x z.y = false := by
  constructor
  · simp [zoneContains, and_assoc]
  · simp [zoneContains]

/-- C7: the zone assigned to a detection is determined by the first zone
(in registration order) whose rectangle contains the box center:
`(false, "Outside")` when no zone matches, `(true, z.name)` for the first
match `z`.  Confidence and box area are not inputs of `assignZone` at
all, so the result is independent of them. -/
theorem C7_first_zone_assignment (zones : List Zone) (cx cy : Int) :
    assignZone zones cx cy =
      match zones.find? (fun z => zoneContains z cx cy) with
      | none => (false, "Outside")
      | some z => (true, z.name) := by
  induction zones with
  | nil => rfl
  | cons z zs ih =>
      by_cases h : zoneContains z cx cy
      · simp [assignZone, List.find?, h]
      · simp only [Bool.not_eq_true] at h
        simp [assignZone, List.find?, h, ih]

/-- The acceptance flag of the alert logic: a trigger is accepted iff
the alert set is non-empty, ROI is enabled, the strict cooldown
comparison passes, and no recording is active. -/
theorem alertPhase_snd (roi : Bool) (c : Int) (s : SysState)
    (objs : List String) (t : Int) :
    (alertPhase roi c s objs t).2 =
      (!objs.isEmpty && roi && decide (t - s.last_alert_time > c) &&
        !s.recording) := by
  unfold alertPhase
  by_cases h1 : (!objs.isEmpty && roi && decide (t - s.last_alert_time > c)) = true
  · by_cases h2 : s.recording <;> simp [h1, h2]
  · simp only [Bool.not_eq_true] at h1
    simp [h1]

/-- On acceptance the alert phase produces exactly the
`start_recording` state. -/
theorem alertPhase_accept (roi : Bool) (c : Int) (s : SysState)
    (objs : List String) (t : Int)
    (h : (alertPhase roi c s objs t).2 = true) :
    (alertPhase roi c s objs t).1 =
      { s with last_alert_time := t, recording := true,
               recording_start_time := t, writer := s.frame_buffer } ∧
      s.last_alert_time + c < t ∧ s.recording = false := by
  rw [alertPhase_snd] at h
  simp only [Bool.and_eq_true, Bool.not_eq_true', decide_eq_true_eq] at h
  obtain ⟨⟨⟨h1, h2⟩, h3⟩, h4⟩ := h
  refine ⟨?_, by omega, h4⟩
  unfold alertPhase
  simp [h1, h2, h3, h4]

/-- On rejection the alert phase leaves the state unchanged. -/
theorem alertPhase_reject (roi : Bool) (c : Int) (s : SysState)
    (objs : List String) (t : Int)
    (h : (alertPhase roi c s objs t).2 = false) :
    (alertPhase roi c s objs t).1 = s := by
  unfold alertPhase at h ⊢
  by_cases h1 : (!objs.isEmpty && roi && decide (t - s.last_alert_time > c)) = true
  · by_cases h2 : s.recording <;> simp_all
  · simp only [Bool.not_eq_true] at h1
    simp [h1]

/-- The recording handling never touches `last_alert_time` or the
frame buffer. -/
theorem recordPhase_preserves (rd : Int) (s : SysState) (f : Nat) (t : Int) :
    (recordPhase rd s f t).last_alert_time = s.last_alert_time ∧
    (recordPhase rd s f t).frame_buffer = s.frame_buffer := by
  unfold recordPhase
  by_cases h : s.recording
  · by_cases h2 : t - s.recording_start_time ≥ rd <;> simp [h, h2]
  · simp [h]

/-- While recording, the recording handling appends exactly the current
frame to the open writer. -/
theorem recordPhase_writer (rd : Int) (s : SysState) (f : Nat) (t : Int)
    (h : s.recording = true) :
    (recordPhase rd s f t).writer = s.writer ++ [f] := by
  unfold recordPhase
  by_cases h2 : t - s.recording_start_time ≥ rd <;> simp [h, h2]

/-- With no recording active, the recording handling is the identity. -/
theorem recordPhase_id (rd : Int) (s : SysState) (f : Nat) (t : Int)
    (h : s.recording = false) :
    recordPhase rd s f t = s := by
  unfold recordPhase
  simp [h]

/-- C1 counterexample: with `cooldown = 5` and `record_duration = 2`, a
trigger at `t = 10` is accepted; after the recording closes at `t = 13`,
a trigger at `t = 15` — exactly `cooldown` after the previous
acceptance, with a non-empty in-zone alert set — satisfies the claim's
acceptance condition (`15 - 10 ≥ 5`) but is rejected by the code's
strict comparison `current_time - last_alert_time > alert_cooldown`. -/
theorem C1_exact_cooldown_rejected :
    (frameStep true 5 2 initState 0 ["person"] 10).2 = true ∧
    (frameStep true 5 2 initState 0 ["person"] 10).1.last_alert_time = 10 ∧
    (frameStep true 5 2 (frameStep true 5 2 initState 0 ["person"] 10).1
        1 [] 13).2 = false ∧
    (frameStep true 5 2 (frameStep true 5 2 initState 0 ["person"] 10).1
        1 [] 13).1.recording = false ∧
    (frameStep true 5 2 (frameStep true 5 2 initState 0 ["person"] 10).1
        1 [] 13).1.last_alert_time = 10 ∧
    (15 : Int) - 10 ≥ 5 ∧
    (frameStep true 5 2
        (frameStep true 5 2 (frameStep true 5 2 initState 0 ["person"] 10).1
          1 [] 13).1 2 ["person"] 15).2 = false := by
  decide

/-- C1 (amended): a trigger is accepted — `start_recording` runs and
`last_alert_time` is set to `t` — iff the frame's set of alert-eligible
in-zone labels is non-empty, ROI monitoring is enabled,
`t - last_alert_time` is strictly greater than the cooldown (so a
trigger arriving exactly `cooldown` after the previous acceptance is
rejected), and no recording is currently active.  `last_alert_time`
starts at `0`, not at an "unset" sentinel. -/
theorem C1_trigger_acceptance_condition (roi : Bool) (cooldown rd : Int)
    (s : SysState) (f : Nat) (objs : List String) (t : Int) :
    (frameStep roi cooldown rd s f objs t).2 = true ↔
      (objs ≠ [] ∧ roi = true ∧ cooldown < t - s.last_alert_time ∧
        s.recording = false) := by
  show (alertPhase roi cooldown _ objs t).2 = true ↔ _
  rw [alertPhase_snd]
  simp [List.isEmpty_iff, Int.lt_iff_add_one_le, and_assoc]

/-- After an accepted step, `last_alert_time` is the acceptance time and
exceeds the previous `last_alert_time` by more than the cooldown. -/
theorem frameStep_last_of_accept (roi : Bool) (c rd : Int) (s : SysState)
    (f : Nat) (objs : List String) (t : Int)
    (h : (frameStep roi c rd s f objs t).2 = true) :
    (frameStep roi c rd s f objs t).1.last_alert_time = t ∧
    s.last_alert_time + c < t := by
  unfold frameStep at h ⊢
  simp only at h ⊢
  obtain ⟨heq, hlt, -⟩ := alertPhase_accept _ _ _ _ _ h
  rw [(recordPhase_preserves rd _ f t).1, heq]
  exact ⟨rfl, hlt⟩

/-- After a rejected step, `last_alert_time` is unchanged. -/
theorem frameStep_last_of_reject (roi : Bool) (c rd : Int) (s : SysState)
    (f : Nat) (objs : List String) (t : Int)
    (h : (frameStep roi c rd s f objs t).2 = false) :
    (frameStep roi c rd s f objs t).1.last_alert_time = s.last_alert_time := by
  unfold frameStep at h ⊢
  simp only at h ⊢
  rw [(recordPhase_preserves rd _ f t).1, alertPhase_reject _ _ _ _ _ h]

/-- Every accepted timestamp in a trace exceeds the starting
`last_alert_time` by more than the cooldown, and consecutive accepted
timestamps are more than the cooldown apart. -/
theorem runTrace_chain (roi : Bool) (c rd : Int) (s : SysState)
    (events : List (Nat × List String × Int)) :
    List.Chain' (fun a b => a + c < b)
      (s.last_alert_time :: runTrace roi c rd s events) := by
  induction events generalizing s with
  | nil => simp [runTrace]
  | cons e rest ih =>
      obtain ⟨f, objs, t⟩ := e
      simp only [runTrace]
      by_cases h : (frameStep roi c rd s f objs t).2 = true
      · obtain ⟨hlast, hgap⟩ := frameStep_last_of_accept roi c rd s f objs t h
        have h2 := ih (frameStep roi c rd s f objs t).1
        rw [hlast] at h2
        simp only [h, if_true, List.singleton_append, List.chain'_cons]
        exact ⟨hgap, h2⟩
      · simp only [Bool.not_eq_true] at h
        have hlast := frameStep_last_of_reject roi c rd s f objs t h
        have h2 := ih (frameStep roi c rd s f objs t).1
        rw [hlast] at h2
        simp only [h, Bool.false_eq_true, if_false, List.nil_append]
        exact h2

/-- C2: for any run of the main loop from the initial state and any
non-negative cooldown, the accepted trigger timestamps are pairwise at
least `cooldown` apart (in fact strictly more), measured from each
acceptance time — not from when its recording finished. -/
theorem C2_cooldown_enforcement (roi : Bool) (c rd : Int) (hc : 0 ≤ c)
    (events : List (Nat × List String × Int)) :
    (runTrace roi c rd initState events).Pairwise
      (fun t1 t2 => c ≤ t2 - t1) := by
  haveI : IsTrans Int (fun a b => a + c < b) :=
    ⟨fun a b d hab hbd => by omega⟩
  have hchain := runTrace_chain roi c rd initState events
  rw [List.chain'_iff_pairwise] at hchain
  exact ((List.pairwise_cons.mp hchain).2).imp (fun h => by omega)

/-- Witness for C2: cooldown 5, triggers accepted at `t = 10` and
`t = 16` (a plain frame at `t = 13` closes the first recording); the
accepted timestamps are at least 5 apart. -/
theorem C2_cooldown_enforcement_witness :
    (0 : Int) ≤ 5 ∧
    (runTrace true 5 2 initState
        [(0, ["person"], 10), (1, [], 13), (2, ["person"], 16)]).Pairwise
      (fun t1 t2 => (5 : Int) ≤ t2 - t1) :=
  ⟨by decide,
    C2_cooldown_enforcement true 5 2 (by decide)
      [(0, ["person"], 10), (1, [], 13), (2, ["person"], 16)]⟩

/-- Pushing onto a buffer within capacity gives length
`min capacity (length + 1)`: a `deque(maxlen=150)` never exceeds 150
elements. -/
theorem pushBuf_length (buf : List Nat) (f : Nat)
    (h : buf.length ≤ bufCapacity) :
    (pushBuf buf f).length = min bufCapacity (buf.length + 1) := by
  unfold pushBuf
  by_cases hful : buf.length = bufCapacity
  · simp only [hful, if_true, List.length_append, List.length_drop,
      List.length_singleton]
    unfold bufCapacity at hful ⊢
    omega
  · simp only [hful, if_false, List.length_append, List.length_singleton]
    unfold bufCapacity at h hful ⊢
    omega

/-- Folding `pushBuf` over a frame list from a buffer within capacity. -/
theorem foldl_pushBuf_length (fs : List Nat) :
    ∀ buf : List Nat, buf.length ≤ bufCapacity →
      (fs.foldl pushBuf buf).length = min bufCapacity (buf.length + fs.length) := by
  induction fs with
  | nil => intro buf h; simpa using by omega
  | cons f rest ih =>
      intro buf h
      simp only [List.foldl_cons, List.length_cons]
      rw [ih (pushBuf buf f) (by rw [pushBuf_length buf f h]; omega),
        pushBuf_length buf f h]
      omega

/-- The number of frames the ring buffer holds after the loop has seen
`k` frames is `min 150 k`. -/
theorem feedFrames_length (fs : List Nat) :
    (feedFrames fs).length = min bufCapacity fs.length := by
  unfold feedFrames
  rw [foldl_pushBuf_length fs [] (by simp)]
  simp

/-- The ring buffer after a step is always the pushed buffer: neither
`start_recording` (which only reads it) nor the recording handling
clears or consumes it. -/
theorem frameStep_buffer (roi : Bool) (c rd : Int) (s : SysState)
    (f : Nat) (objs : List String) (t : Int) :
    (frameStep roi c rd s f objs t).1.frame_buffer = pushBuf s.frame_buffer f := by
  unfold frameStep
  simp only
  rw [(recordPhase_preserves rd _ f t).2]
  by_cases h : (alertPhase roi c { s with frame_buffer := pushBuf s.frame_buffer f } objs t).2 = true
  · rw [(alertPhase_accept _ _ _ _ _ h).1]
  · simp only [Bool.not_eq_true] at h
    rw [alertPhase_reject _ _ _ _ _ h]

/-- On an accepted step the writer holds exactly the buffer snapshot
(`start_recording`, lines 146-148) followed by the current frame
(line 319). -/
theorem frameStep_writer_of_accept (roi : Bool) (c rd : Int) (s : SysState)
    (f : Nat) (objs : List String) (t : Int)
    (h : (frameStep roi c rd s f objs t).2 = true) :
    (frameStep roi c rd s f objs t).1.writer = pushBuf s.frame_buffer f ++ [f] := by
  unfold frameStep at h ⊢
  simp only at h ⊢
  obtain ⟨heq, -, -⟩ := alertPhase_accept _ _ _ _ _ h
  rw [heq, recordPhase_writer rd _ f t rfl]

/-- C4: when a trigger is accepted, the first `N` frames written to the
clip are exactly the ring buffer's contents at trigger time, oldest
first; seeding the recording leaves the buffer intact; and the buffer
holds `N = min 150 k` frames after `k` frames have been seen. -/
theorem C4_preevent_completeness (roi : Bool) (c rd : Int) (s : SysState)
    (f : Nat) (objs : List String) (t : Int)
    (h : (frameStep roi c rd s f objs t).2 = true) :
    ((frameStep roi c rd s f objs t).1.writer).take
        (pushBuf s.frame_buffer f).length = pushBuf s.frame_buffer f ∧
    (frameStep roi c rd s f objs t).1.frame_buffer = pushBuf s.frame_buffer f ∧
    ∀ fs : List Nat, (feedFrames fs).length = min bufCapacity fs.length := by
  refine ⟨?_, frameStep_buffer roi c rd s f objs t, feedFrames_length⟩
  rw [frameStep_writer_of_accept roi c rd s f objs t h]
  exact List.take_left _ _

/-- Witness for C4 at a concrete accepted trigger. -/
theorem C4_preevent_completeness_witness :
    (frameStep true 5 100 initState 7 ["person"] 10).2 = true ∧
    (((frameStep true 5 100 initState 7 ["person"] 10).1.writer).take
        (pushBuf initState.frame_buffer 7).length = pushBuf initState.frame_buffer 7 ∧
      (frameStep true 5 100 initState 7 ["person"] 10).1.frame_buffer =
        pushBuf initState.frame_buffer 7 ∧
      ∀ fs : List Nat, (feedFrames fs).length = min bufCapacity fs.length) :=
  ⟨by decide, C4_preevent_completeness true 5 100 initState 7 ["person"] 10 (by decide)⟩

/-- C5: at most one recording session is ever active, and a trigger
arriving while a session is active — even one whose cooldown guard
passes — is a no-op: it is not accepted, `last_alert_time` is untouched,
and the only write is the normal appending of the current frame to the
already-open writer (the buffered frames are not written a second
time). -/
theorem C5_single_active_session (roi : Bool) (c rd : Int) (s : SysState)
    (f : Nat) (objs : List String) (t : Int)
    (hrec : s.recording = true) :
    (frameStep roi c rd s f objs t).2 = false ∧
    (frameStep roi c rd s f objs t).1.writer = s.writer ++ [f] ∧
    (frameStep roi c rd s f objs t).1.last_alert_time = s.last_alert_time ∧
    ∀ s' : SysState, activeSessions s' ≤ 1 := by
  have hsnd : (frameStep roi c rd s f objs t).2 = false := by
    have := alertPhase_snd roi c { s with frame_buffer := pushBuf s.frame_buffer f } objs t
    unfold frameStep
    simp only
    rw [this]
    simp [hrec]
  refine ⟨hsnd, ?_, frameStep_last_of_reject roi c rd s f objs t hsnd, ?_⟩
  · unfold frameStep at hsnd ⊢
    simp only at hsnd ⊢
    rw [alertPhase_reject _ _ _ _ _ hsnd]
    exact recordPhase_writer rd _ f t hrec
  · intro s'
    unfold activeSessions
    by_cases h : s'.recording <;> simp [h]

/-- Witness for C5: a trigger at `t = 200` (far past the cooldown) while
`sActive` is recording is dropped and writes nothing but the current
frame. -/
theorem C5_single_active_session_witness :
    sActive.recording = true ∧
    ((frameStep true 5 1000 sActive 2 ["person"] 200).2 = false ∧
      (frameStep true 5 1000 sActive 2 ["person"] 200).1.writer =
        sActive.writer ++ [2] ∧
      (frameStep true 5 1000 sActive 2 ["person"] 200).1.last_alert_time =
        sActive.last_alert_time ∧
      ∀ s' : SysState, activeSessions s' ≤ 1) :=
  ⟨rfl, C5_single_active_session true 5 1000 sActive 2 ["person"] 200 rfl⟩

/-- C9 counterexample: a detection whose box has zero width and height
(`(10, 10, 0, 0)`) survives to the consumption loop, is classified
(center `(10, 10)`, outside the zone) and produces a CSV log row — it is
not rejected, no warning path exists. -/
theorem C9_no_dimension_rejection :
    (processDetections true [zone1] ["person"] (fun _ => true)
        [("person", 90, ⟨10, 10, 0, 0⟩)]).1 =
      [⟨"person", 90, false, "Outside", false⟩] := by
  decide

/-- The consumption loop emits exactly one log row per NMS-kept
detection, whatever its box dimensions. -/
theorem processAux_length (roi : Bool) (zones : List Zone)
    (alertObjs : List String) (keep : Nat → Bool)
    (dets : List (String × Nat × RawBox)) :
    ∀ i : Nat,
      (processDetectionsAux roi zones alertObjs keep i dets).1.length =
        (dets.enumFrom i).countP (fun p => keep p.1) := by
  induction dets with
  | nil => intro i; rfl
  | cons d rest ih =>
      intro i
      obtain ⟨label, conf, b⟩ := d
      simp only [processDetectionsAux, List.enumFrom, List.countP_cons]
      by_cases h : keep i <;> simp [h, ih (i + 1)]

/-- C9 (amended): the code performs no validation of box dimensions at
all: every detection retained by NMS — including one with non-positive
width or height — is classified and appended to the detection log
exactly once, and no warning or rejection count exists.  (Stated as: the
number of log rows equals the number of kept detections, for arbitrary
boxes.) -/
theorem C9_all_kept_detections_logged (roi : Bool) (zones : List Zone)
    (alertObjs : List String) (keep : Nat → Bool)
    (dets : List (String × Nat × RawBox)) :
    (processDetections roi zones alertObjs keep dets).1.length =
      (dets.enumFrom 0).countP (fun p => keep p.1) :=
  processAux_length roi zones alertObjs keep dets 0

/-- C10: every CSV row produced by the consumption loop carries
`Alert_Triggered = False` — the single `log_detection` call site
(line 303) passes the constant `False`, whatever the alert logic later
decides. -/
theorem C10_alert_triggered_always_false (roi : Bool) (zones : List Zone)
    (alertObjs : List String) (keep : Nat → Bool)
    (dets : List (String × Nat × RawBox)) :
    (processDetections roi zones alertObjs keep dets).1.all
      (fun r => !r.alert_triggered) = true := by
  unfold processDetections
  generalize 0 = i
  induction dets generalizing i with
  | nil => rfl
  | cons d rest ih =>
      obtain ⟨label, conf, b⟩ := d
      simp only [processDetectionsAux]
      by_cases h : keep i <;> simp [h, ih, classifyOne]

/-- C8 counterexample: with notifications disabled and an existing
artifact, `send_email_alert` performs no delivery — but it also never
consults the artifact path, contradicting the claimed diagnostic
validation. -/
theorem C8_disabled_skips_validation :
    (send_email_alert false true).delivery_attempted = false ∧
    (send_email_alert false true).checked_path = false := by
  decide

/-- C8 (amended): when notifications are disabled by configuration,
`send` returns immediately as a pure no-op — no delivery attempt, no
attachment, and no check that the artifact path exists (the existence
check happens only in the enabled branch). -/
theorem C8_disabled_is_pure_noop (path_exists : Bool) :
    send_email_alert false path_exists =
      { checked_path := false, attached_clip := false,
        delivery_attempted := false } := by
  rfl

/-- C6 counterexample: a process started on day 20250101 that appends a
detection on day 20250102 (after local midnight) writes the row into
`detections_20250101.csv`, not into a fresh partition named for
20250102 — no new per-day file is created. -/
theorem C6_no_midnight_rollover :
    (log_detection (initLog 20250101) 20250102 sampleRow).rows =
      [(mkLogFile 20250101, 20250102, sampleRow)] ∧
    mkLogFile 20250101 ≠ mkLogFile 20250102 := by
  constructor
  · rfl
  · decide

/-- C6 (amended): the detection-log file is named by the date at process
startup and fixed for the process lifetime: every row appended
afterwards, on whatever day, lands in that same startup-day file, so the
log is one file per process start, not one per calendar day of
execution. -/
theorem C6_log_file_fixed_at_startup (startDay : Nat)
    (items : List (Nat × LogRow)) :
    ((appendAll (initLog startDay) items).rows).all
      (fun e => e.1 == mkLogFile startDay) = true := by
  suffices h : ∀ s : LogState, s.log_file = mkLogFile startDay →
      s.rows.all (fun e => e.1 == mkLogFile startDay) = true →
      ((appendAll s items).rows).all (fun e => e.1 == mkLogFile startDay) = true by
    exact h (initLog startDay) rfl rfl
  induction items with
  | nil => intro s h1 h2; exact h2
  | cons it rest ih =>
      intro s h1 h2
      obtain ⟨d, r⟩ := it
      refine ih (log_detection s d r) h1 ?_
      unfold log_detection
      simp only [List.all_append, h2, List.all_cons, List.all_nil, h1,
        Bool.true_and, Bool.and_true, beq_self_eq_true]
